import Mathlib

/-!
Verification of the image template functions of
`components/templates/src/global_fns/images.rs` (the `resize_image` and
`get_image_metadata` Tera functions together with `image_dimensions` and the
path resolution helper `search_for_file`).

The embedding models file-system paths as lists of components, the file
system as an association list from (normalized) paths to the data the image
parsers would see, and the dynamically typed Tera argument bags as
association lists of `Value`s.  Machine integers (`u8`, `u32`) are modelled
as integers with explicit bounds checks, and fallible operations return
`Except String`.
-/

namespace ZolaImages

/-- A file-system path: a list of path components. -/
abbrev FPath := List String

/-- One step of path normalization, as the operating system performs it when
it resolves a joined path to check existence: `.` and empty components
disappear, `..` removes the previous component (at the root it is a no-op),
and any other component is appended. -/
def normStep (acc : List String) (c : String) : List String :=
  if c = "." ∨ c = "" then acc
  else if c = ".." then acc.dropLast
  else acc ++ [c]

/-- Normalize a path: resolve `.`, `..` and empty components. -/
def normalize (p : FPath) : FPath := p.foldl normStep []

/-- The `viewBox` rectangle of an SVG document (`svg_metadata::ViewBox`).
Dimension fields are modelled as naturals (the source truncates the parsed
floating values with `as u32`). -/
structure ViewBox where
  minX : Int
  minY : Int
  width : Nat
  height : Nat

/-- What `svg_metadata::Metadata` exposes of a successfully parsed SVG file:
optional explicit height and width attributes and an optional viewBox. -/
structure SvgMeta where
  height : Option Nat
  width : Option Nat
  viewBox : Option ViewBox

/-- The content of a file as the image parsers see it: a parseable SVG
document, an SVG file the SVG parser rejects, a decodable raster image with
its pixel height and width, or a file the raster decoder rejects. -/
inductive FileData where
  | svg (meta : SvgMeta)
  | svgCorrupt
  | raster (height width : Nat)
  | rasterCorrupt

/-- The file system: an association list from paths to file data.  A path
exists iff its normalized form is a key. -/
abbrev FS := List (FPath × FileData)

/-- Look a path up in the file system; the operating system resolves `.` and
`..` components before the lookup. -/
def lookupFile (fs : FS) (p : FPath) : Option FileData :=
  fs.lookup (normalize p)

/-- `Path::exists`: the path, once resolved, names a file of the file
system. -/
def fileExists (fs : FS) (p : FPath) : Bool :=
  (lookupFile fs p).isSome

/-- Split a character list into strings at every occurrence of `sep`
(semantics of Rust's `str::split`). -/
def splitCharAux (sep : Char) : List Char → List Char → List String
  | [], acc => [String.mk acc.reverse]
  | c :: cs, acc =>
    if c = sep then String.mk acc.reverse :: splitCharAux sep cs []
    else splitCharAux sep cs (c :: acc)

/-- Split a string at every occurrence of `sep`. -/
def splitChar (sep : Char) (s : String) : List String :=
  splitCharAux sep s.toList []

/-- `str::starts_with` on the character lists of the two strings. -/
def strStartsWith (s pre : String) : Bool :=
  pre.toList.isPrefixOf s.toList

/-- Drop the first `n` characters of a string (`String::drop` by chars). -/
def strDrop (s : String) (n : Nat) : String :=
  String.mk (s.toList.drop n)

/-- The components of a logical path: its slash-separated pieces. -/
def pathComponents (p : String) : List String :=
  splitChar '/' p

/-- Modelled from the spec: `search_for_file`
(`crate::global_fns::helpers`), which `images.rs` calls, is declared outside
the sources at hand; spec §4.1/§6 describe it.  A path beginning with the
path separator is never attempted against any root and fails resolution.  A
path beginning with `@/` resolves its remainder against the content root.  A
path beginning with `content/` or `static/` resolves directly against the
base directory.  Any other bare relative path is tried against the content
root, then the static root, then the base directory itself, in that fixed
order.  The first existing candidate is returned (as the joined, still
unnormalized path, as `Path::join` would produce it); `none` means not
found, and the caller decides whether absence is fatal. -/
def searchForFile (fs : FS) (basePath : FPath) (p : String) : Option FPath :=
  if strStartsWith p "/" then
    none
  else if strStartsWith p "@/" then
    let cand := basePath ++ "content" :: pathComponents (strDrop p 2)
    if fileExists fs cand then some cand else none
  else if strStartsWith p "content/" || strStartsWith p "static/" then
    let cand := basePath ++ pathComponents p
    if fileExists fs cand then some cand else none
  else
    let c₁ := basePath ++ "content" :: pathComponents p
    let c₂ := basePath ++ "static" :: pathComponents p
    let c₃ := basePath ++ pathComponents p
    if fileExists fs c₁ then some c₁
    else if fileExists fs c₂ then some c₂
    else if fileExists fs c₃ then some c₃
    else none

/-- The ordered candidate list the spec prescribes for resolution: none for
an absolute path; the content-root join for an `@/` path; the direct join
for a `content/` or `static/` path; and the content-root, static-root and
base-directory joins, in that order, for a bare relative path. -/
def resolutionCandidates (basePath : FPath) (p : String) : List FPath :=
  if strStartsWith p "/" then []
  else if strStartsWith p "@/" then
    [basePath ++ "content" :: pathComponents (strDrop p 2)]
  else if strStartsWith p "content/" || strStartsWith p "static/" then
    [basePath ++ pathComponents p]
  else
    [basePath ++ "content" :: pathComponents p,
     basePath ++ "static" :: pathComponents p,
     basePath ++ pathComponents p]

/-- A `tera::Value` as the two functions consume it: null, boolean, integer
number, string, or object. -/
inductive Value where
  | null
  | bool (b : Bool)
  | num (n : Int)
  | str (s : String)
  | obj (fields : List (String × Value))

/-- `HashMap::get` on the named-argument bag. -/
def getArg (args : List (String × Value)) (key : String) : Option Value :=
  args.lookup key

/-- `tera::from_value::<String>`: succeeds exactly on a string value. -/
def fromValueString : Value → Option String
  | .str s => some s
  | _ => none

/-- `tera::from_value::<u32>`: succeeds exactly on an integer number that
fits in an unsigned 32-bit integer. -/
def fromValueU32 : Value → Option Nat
  | .num n => if 0 ≤ n ∧ n < 4294967296 then some n.toNat else none
  | _ => none

/-- `tera::from_value::<u8>`: succeeds exactly on an integer number that
fits in an unsigned 8-bit integer. -/
def fromValueU8 : Value → Option Nat
  | .num n => if 0 ≤ n ∧ n < 256 then some n.toNat else none
  | _ => none

/-- `tera::from_value::<bool>`: succeeds exactly on a boolean value. -/
def fromValueBool : Value → Option Bool
  | .bool b => some b
  | _ => none

/-- Modelled from the spec: the `required_arg!` macro
(`crate::global_fns::helpers`, declared outside the sources at hand).  A
missing key, or a present value the conversion rejects, fails with the given
message (spec §4.3: a missing required key or wrong type fails
validation). -/
def requiredArg (conv : Value → Option α) (v : Option Value) (err : String) :
    Except String α :=
  match v with
  | some v =>
    match conv v with
    | some x => .ok x
    | none => .error err
  | none => .error err

/-- Modelled from the spec: the `optional_arg!` macro
(`crate::global_fns::helpers`, declared outside the sources at hand).  A
missing key yields `none`; a present value the conversion rejects fails with
the given message (spec §4.3). -/
def optionalArg (conv : Value → Option α) (v : Option Value) (err : String) :
    Except String (Option α) :=
  match v with
  | some v =>
    match conv v with
    | some x => .ok (some x)
    | none => .error err
  | none => .ok none

/-- The operation handed to the external image processor
(`imageproc::ImageOp`): the logical path, the resolved file, and the
validated resize parameters. -/
structure ImageOp where
  path : String
  filePath : FPath
  op : String
  width : Option Nat
  height : Option Nat
  format : String
  quality : Option Nat

/-- The external Processor collaborator (`imageproc`): `fromArgs` builds an
operation (`ImageOp::from_args`, which may fail), and `insert` registers it
and returns the `(static_path, url)` pair (`Processor::insert`).  Both are
opaque to this layer. -/
structure ImageProc where
  fromArgs : String → FPath → String → Option Nat → Option Nat → String →
    Option Nat → Except String ImageOp
  insert : ImageOp → String × String

/-- The validated arguments of `resize_image` (lines 39–67 of
`images.rs`). -/
structure ResizeArgs where
  path : String
  width : Option Nat
  height : Option Nat
  op : String
  format : String
  quality : Option Nat

/-- Argument validation of `ResizeImage::call`, in source order: `path`
(required string), `width` and `height` (optional `u32`), `op` and `format`
(optional strings with defaults `"fill"` and `"auto"`), `quality` (optional
`u8`), then the range check rejecting a present quality outside 1..=100. -/
def validateResizeArgs (args : List (String × Value)) :
    Except String ResizeArgs := do
  let path ← requiredArg fromValueString (getArg args "path")
    "`resize_image` requires a `path` argument with a string value"
  let width ← optionalArg fromValueU32 (getArg args "width")
    "`resize_image`: `width` must be a non-negative integer"
  let height ← optionalArg fromValueU32 (getArg args "height")
    "`resize_image`: `height` must be a non-negative integer"
  let op := (← optionalArg fromValueString (getArg args "op")
    "`resize_image`: `op` must be a string").getD "fill"
  let format := (← optionalArg fromValueString (getArg args "format")
    "`resize_image`: `format` must be a string").getD "auto"
  let quality ← optionalArg fromValueU8 (getArg args "quality")
    "`resize_image`: `quality` must be a number"
  if let some q := quality then
    if q = 0 ∨ 100 < q then
      throw "`resize_image`: `quality` must be in range 1-100"
  return ⟨path, width, height, op, format, quality⟩

/-- `ResizeImage::call`: validate the arguments, resolve the path with
`search_for_file` (absence is fatal here), build the operation with
`ImageOp::from_args` (its error is forwarded with a `resize_image` prefix),
insert it into the processor and return the `url`/`static_path` object. -/
def resizeImage (fs : FS) (basePath : FPath) (proc : ImageProc)
    (args : List (String × Value)) : Except String Value := do
  let r ← validateResizeArgs args
  match searchForFile fs basePath r.path with
  | none => throw ("`resize_image`: Cannot find file: " ++ r.path)
  | some filePath =>
    match proc.fromArgs r.path filePath r.op r.width r.height r.format
        r.quality with
    | .error e => throw ("`resize_image`: " ++ e)
    | .ok iop =>
      let res := proc.insert iop
      return .obj [("url", .str res.2), ("static_path", .str res.1)]

/-- `Path::display` of a path, for error messages. -/
def display (p : FPath) : String :=
  String.intercalate "/" p

/-- `Path::extension` of the last component: the part after the last dot,
none when there is no dot or the only dot starts the file name. -/
def extension (p : FPath) : Option String :=
  match p.getLast? with
  | none => none
  | some name =>
    match splitChar '.' name with
    | [] => none
    | [_] => none
    | ["", _] => none
    | parts => parts.getLast?

/-- `image_dimensions` (lines 91–105 of `images.rs`): for an `svg` extension
the SVG metadata is parsed; both explicit attributes win, otherwise the
viewBox rectangle, otherwise the invalid-dimensions error; a parse failure
reports the file.  Every other extension is decoded as a raster image and
yields its pixel height and width; a decode failure reports the file. -/
def imageDimensions (fs : FS) (p : FPath) : Except String (Nat × Nat) :=
  if extension p = some "svg" then
    match lookupFile fs p with
    | some (.svg m) =>
      match m.height, m.width, m.viewBox with
      | some h, some w, _ => .ok (h, w)
      | _, _, some vb => .ok (vb.height, vb.width)
      | _, _, none =>
        .error "Invalid dimensions: SVG width/height and viewbox not set."
    | _ => .error ("Failed to process SVG: " ++ display p)
  else
    match lookupFile fs p with
    | some (.raster h w) => .ok (h, w)
    | _ => .error ("Failed to process image: " ++ display p)

/-- `GetImageMetadata::call`: validate `path` (required string) and
`allow_missing` (optional boolean, default `false`); on resolution failure
return null when `allow_missing` holds and otherwise fail (with a message
that names `resize_image`); on success return the `height`/`width`
object. -/
def getImageMetadata (fs : FS) (basePath : FPath)
    (args : List (String × Value)) : Except String Value := do
  let path ← requiredArg fromValueString (getArg args "path")
    "`get_image_metadata` requires a `path` argument with a string value"
  let allowMissing := (← optionalArg fromValueBool (getArg args "allow_missing")
    "`get_image_metadata`: `allow_missing` must be a boolean (true or false)").getD
    false
  match searchForFile fs basePath path with
  | none =>
    if allowMissing then
      return .null
    else
      throw ("`resize_image`: Cannot find path: " ++ path)
  | some srcPath => do
    let hw ← imageDimensions fs srcPath
    return .obj [("height", .num (Int.ofNat hw.1)), ("width", .num (Int.ofNat hw.2))]

/-- Whether an `Except` result is a success. -/
def isOk : Except String Value → Bool
  | .ok _ => true
  | .error _ => false

/-- A site with a 380×300 raster image in both the content and the static
directory, as in the tests of `images.rs`. -/
def fsSite : FS :=
  [(["site", "content", "gutenberg.jpg"], .raster 380 300),
   (["site", "static", "gutenberg.jpg"], .raster 380 300),
   (["site", "content", "gallery", "asset.jpg"], .raster 380 300)]

/-- A processor whose operation construction always succeeds and whose
insertion returns a fixed pair, standing for the external engine. -/
def procOk : ImageProc where
  fromArgs := fun p f o w h fmt q => .ok ⟨p, f, o, w, h, fmt, q⟩
  insert := fun _ =>
    ("static/processed_images/out.jpg",
     "http://a-website.com/processed_images/out.jpg")

/-- An SVG with explicit height 380 and width 300 and no viewBox. -/
def svgExplicit : SvgMeta := ⟨some 380, some 300, none⟩

/-- An SVG with no explicit attributes and viewBox `0 0 300 380`. -/
def svgViewBoxOnly : SvgMeta := ⟨none, none, some ⟨0, 0, 300, 380⟩⟩

/-- A site holding the two SVG examples of the spec. -/
def fsSvg : FS :=
  [(["site", "content", "explicit.svg"], .svg svgExplicit),
   (["site", "content", "viewbox.svg"], .svg svgViewBoxOnly)]

/-- A file system whose only file lies above the site directory. -/
def fsOutside : FS := [(["secret.jpg"], .raster 10 20)]

/-! ### Shared helper lemmas -/

theorem except_ok_bind {ε α β : Type} (a : α) (f : α → Except ε β) :
    (Except.ok a >>= f) = f a := rfl

theorem except_error_bind {ε α β : Type} (e : ε) (f : α → Except ε β) :
    ((Except.error e : Except ε α) >>= f) = .error e := rfl

theorem find?_cons_eq_if {α : Type} (f : α → Bool) (a : α) (l : List α) :
    List.find? f (a :: l) = if f a then some a else List.find? f l := by
  cases h : f a <;> simp [List.find?_cons_of_pos, List.find?_cons_of_neg, h]

theorem metadata_missing_allow (fs : FS) (basePath : FPath) (p : String)
    (hres : searchForFile fs basePath p = none) :
    getImageMetadata fs basePath
      [("path", .str p), ("allow_missing", .bool true)] = .ok .null := by
  unfold getImageMetadata
  simp [getArg, List.lookup, requiredArg, optionalArg, fromValueString,
    fromValueBool, except_ok_bind, hres]
  rfl

theorem metadata_missing_default (fs : FS) (basePath : FPath) (p : String)
    (hres : searchForFile fs basePath p = none) :
    getImageMetadata fs basePath [("path", .str p)]
      = .error ("`resize_image`: Cannot find path: " ++ p) := by
  unfold getImageMetadata
  simp [getArg, List.lookup, requiredArg, optionalArg, fromValueString,
    fromValueBool, except_ok_bind, hres]
  rfl

theorem metadata_missing_false (fs : FS) (basePath : FPath) (p : String)
    (hres : searchForFile fs basePath p = none) :
    getImageMetadata fs basePath
        [("path", .str p), ("allow_missing", .bool false)]
      = .error ("`resize_image`: Cannot find path: " ++ p) := by
  unfold getImageMetadata
  simp [getArg, List.lookup, requiredArg, optionalArg, fromValueString,
    fromValueBool, except_ok_bind, hres]
  rfl

theorem resize_missing (fs : FS) (basePath : FPath) (proc : ImageProc)
    (args : List (String × Value)) (r : ResizeArgs)
    (hv : validateResizeArgs args = .ok r)
    (hres : searchForFile fs basePath r.path = none) :
    resizeImage fs basePath proc args
      = .error ("`resize_image`: Cannot find file: " ++ r.path) := by
  unfold resizeImage
  rw [hv, except_ok_bind, hres]
  rfl

theorem fromValueU8_coe (q : Nat) (hq : q < 256) :
    fromValueU8 (.num (q : Int)) = some q := by
  simp [fromValueU8, hq]

set_option maxRecDepth 4000 in
theorem validate_pq_out (p : String) (q : Nat) (hq : q < 256)
    (hr : q = 0 ∨ 100 < q) :
    validateResizeArgs [("path", .str p), ("quality", .num (q : Int))]
      = .error "`resize_image`: `quality` must be in range 1-100" := by
  simp [validateResizeArgs, getArg, List.lookup, requiredArg, optionalArg,
    fromValueString, fromValueU8_coe q hq, except_ok_bind, hr]
  rfl

set_option maxRecDepth 4000 in
theorem validate_pq_in (p : String) (q : Nat) (hq : q < 256)
    (hr : ¬(q = 0 ∨ 100 < q)) :
    validateResizeArgs [("path", .str p), ("quality", .num (q : Int))]
      = .ok ⟨p, none, none, "fill", "auto", some q⟩ := by
  simp [validateResizeArgs, getArg, List.lookup, requiredArg, optionalArg,
    fromValueString, fromValueU8_coe q hq, except_ok_bind, hr]

theorem searchForFile_shape (fs : FS) (basePath : FPath) (p : String)
    (r : FPath) (hr : searchForFile fs basePath p = some r) :
    r = basePath ++ "content" :: pathComponents (strDrop p 2) ∨
    r = basePath ++ pathComponents p ∨
    r = basePath ++ "content" :: pathComponents p ∨
    r = basePath ++ "static" :: pathComponents p := by
  simp only [searchForFile] at hr
  split_ifs at hr <;>
    first
      | exact Option.noConfusion hr
      | (injection hr with h; subst h; tauto)

theorem foldl_normStep_extend (rest : List String)
    (hrest : ∀ c ∈ rest, c ≠ "..") (xs : List String) :
    ∃ t, rest.foldl normStep xs = xs ++ t := by
  induction rest generalizing xs with
  | nil => exact ⟨[], by simp⟩
  | cons c cs ih =>
    have hc : c ≠ ".." := hrest c (List.mem_cons_self c cs)
    have hcs : ∀ d ∈ cs, d ≠ ".." :=
      fun d hd => hrest d (List.mem_cons_of_mem c hd)
    rw [List.foldl_cons]
    by_cases hce : c = "." ∨ c = ""
    · rw [show normStep xs c = xs from by simp [normStep, hce]]
      exact ih hcs xs
    · rw [show normStep xs c = xs ++ [c] from by simp [normStep, hce, hc]]
      obtain ⟨t, ht⟩ := ih hcs (xs ++ [c])
      exact ⟨c :: t, by rw [ht]; simp⟩

theorem normalize_append_extend (basePath rest : List String)
    (hrest : ∀ c ∈ rest, c ≠ "..") :
    ∃ t, normalize (basePath ++ rest) = normalize basePath ++ t := by
  have h : normalize (basePath ++ rest)
      = rest.foldl normStep (normalize basePath) := by
    simp [normalize, List.foldl_append]
  rw [h]
  exact foldl_normStep_extend rest hrest (normalize basePath)

/-! ### Claim theorems -/

/-- C1, counterexample: the logical path `../../secret.jpg`, which is not
absolute, is accepted by the resolver and by `get_image_metadata`, yet the
resolved file, once the operating system resolves the parent-directory
components, is `/secret.jpg`, outside the site root `/site`. -/
theorem search_escapes_site_root :
    searchForFile fsOutside ["site"] "../../secret.jpg"
      = some ["site", "content", "..", "..", "secret.jpg"] ∧
    normalize ["site", "content", "..", "..", "secret.jpg"] = ["secret.jpg"] ∧
    normalize ["site"] = ["site"] ∧
    List.isPrefixOf ["site"] ["secret.jpg"] = false ∧
    getImageMetadata fsOutside ["site"] [("path", .str "../../secret.jpg")]
      = .ok (.obj [("height", .num 10), ("width", .num 20)]) :=
  ⟨rfl, rfl, rfl, rfl, rfl⟩

/-- C1 (amended): for every non-absolute logical path none of whose
slash-separated components (nor of its `@/`-stripped remainder's components)
is the parent-directory component `..`, any file the resolver returns lies,
after normalization, inside the site root: the normalized base directory is
a prefix of the normalized resolved path. -/
theorem resolved_stays_in_site_root (fs : FS) (basePath : FPath) (p : String)
    (r : FPath)
    (h1 : ∀ c ∈ pathComponents p, c ≠ "..")
    (h2 : ∀ c ∈ pathComponents (strDrop p 2), c ≠ "..")
    (hr : searchForFile fs basePath p = some r) :
    ∃ t, normalize r = normalize basePath ++ t := by
  rcases searchForFile_shape fs basePath p r hr with h | h | h | h <;>
    subst h <;> apply normalize_append_extend <;> intro c hc
  · rcases List.mem_cons.mp hc with rfl | hc'
    · decide
    · exact h2 c hc'
  · exact h1 c hc
  · rcases List.mem_cons.mp hc with rfl | hc'
    · decide
    · exact h1 c hc'
  · rcases List.mem_cons.mp hc with rfl | hc'
    · decide
    · exact h1 c hc'

/-- C1, witness for the amended theorem at `gutenberg.jpg` on the example
site. -/
theorem resolved_stays_in_site_root_witness :
    ∃ t, normalize ["site", "content", "gutenberg.jpg"]
      = normalize ["site"] ++ t :=
  resolved_stays_in_site_root fsSite ["site"] "gutenberg.jpg"
    ["site", "content", "gutenberg.jpg"] (by decide) (by decide) rfl

/-- C2: for every SVG file the dimension extractor returns the explicit
`(height, width)` when both attributes are present; otherwise, when a
viewBox is present, the viewBox rectangle's height and width; otherwise the
invalid-dimensions error.  An SVG with explicit height 380 and width 300 and
no viewBox yields `(380, 300)`, and an SVG with only viewBox `0 0 300 380`
yields the same values. -/
theorem svg_dimension_fallback (fs : FS) (p : FPath) (m : SvgMeta)
    (hext : extension p = some "svg")
    (hfile : lookupFile fs p = some (.svg m)) :
    (∀ h w, m.height = some h → m.width = some w →
      imageDimensions fs p = .ok (h, w)) ∧
    (∀ vb, (m.height = none ∨ m.width = none) → m.viewBox = some vb →
      imageDimensions fs p = .ok (vb.height, vb.width)) ∧
    ((m.height = none ∨ m.width = none) → m.viewBox = none →
      imageDimensions fs p
        = .error "Invalid dimensions: SVG width/height and viewbox not set.") ∧
    imageDimensions fsSvg ["site", "content", "explicit.svg"]
      = .ok (380, 300) ∧
    imageDimensions fsSvg ["site", "content", "viewbox.svg"]
      = .ok (380, 300) := by
  refine ⟨?_, ?_, ?_, rfl, rfl⟩
  · intro h w hh hw
    simp [imageDimensions, hext, hfile, hh, hw]
  · intro vb hor hvb
    rcases hor with hh | hw
    · simp [imageDimensions, hext, hfile, hh, hvb]
    · cases hh' : m.height <;>
        simp [imageDimensions, hext, hfile, hh', hw, hvb]
  · intro hor hvb
    rcases hor with hh | hw
    · simp [imageDimensions, hext, hfile, hh, hvb]
    · cases hh' : m.height <;>
        simp [imageDimensions, hext, hfile, hh', hw, hvb]

/-- C2, witness at the explicit-attributes SVG example. -/
theorem svg_dimension_fallback_witness :
    imageDimensions fsSvg ["site", "content", "explicit.svg"]
      = .ok (380, 300) :=
  (svg_dimension_fallback fsSvg ["site", "content", "explicit.svg"]
    svgExplicit rfl rfl).2.2.2.1

/-- C3: a present `quality` that parses as an 8-bit integer is rejected with
the invalid-range error exactly when it is 0 or above 100; with the example
site and processor, `resize_image` succeeds exactly when the quality lies in
1..=100 (in particular 1 and 100 pass the check and 0 and 101 fail). -/
theorem quality_range_check (fs : FS) (basePath : FPath) (proc : ImageProc)
    (p : String) (q : Nat) (hq : q < 256) :
    ((q = 0 ∨ 100 < q) →
      resizeImage fs basePath proc
          [("path", .str p), ("quality", .num (q : Int))]
        = .error "`resize_image`: `quality` must be in range 1-100") ∧
    (isOk (resizeImage fsSite ["site"] procOk
        [("path", .str "gutenberg.jpg"), ("quality", .num (q : Int))]) = true
      ↔ 1 ≤ q ∧ q ≤ 100) := by
  constructor
  · intro hr
    unfold resizeImage
    rw [validate_pq_out p q hq hr]
    rfl
  · by_cases hr : q = 0 ∨ 100 < q
    · unfold resizeImage
      rw [validate_pq_out "gutenberg.jpg" q hq hr, except_error_bind]
      simp [isOk]
      omega
    · unfold resizeImage
      rw [validate_pq_in "gutenberg.jpg" q hq hr, except_ok_bind]
      exact ⟨fun _ => by omega, fun _ => rfl⟩

/-- C3, witness at quality 100 on the example site. -/
theorem quality_range_check_witness :
    isOk (resizeImage fsSite ["site"] procOk
        [("path", .str "gutenberg.jpg"),
         ("quality", .num ((100 : Nat) : Int))]) = true :=
  (quality_range_check fsSite ["site"] procOk "gutenberg.jpg" 100
    (by decide)).2.mpr (by decide)

/-- C4: argument validation precedes path resolution.  Whenever validation
fails, `resize_image` fails with exactly the validation error, for every
file system, base path and processor alike (so whether the named file exists
is irrelevant and resolution is never consulted); a missing `path` argument
fails with the missing-argument message. -/
theorem validation_precedes_resolution (fs fs' : FS)
    (basePath basePath' : FPath) (proc proc' : ImageProc)
    (args : List (String × Value)) (e : String)
    (h : validateResizeArgs args = .error e) :
    resizeImage fs basePath proc args = .error e ∧
    resizeImage fs basePath proc args = resizeImage fs' basePath' proc' args ∧
    (getArg args "path" = none →
      validateResizeArgs args =
        .error "`resize_image` requires a `path` argument with a string value") := by
  have h1 : ∀ (fs₀ : FS) (bp : FPath) (pr : ImageProc),
      resizeImage fs₀ bp pr args = .error e := by
    intro fs₀ bp pr
    unfold resizeImage
    rw [h]
    rfl
  refine ⟨h1 fs basePath proc, ?_, ?_⟩
  · rw [h1, h1]
  · intro hp
    unfold validateResizeArgs
    rw [hp]
    rfl

/-- C4, witness: an out-of-range quality fails with the range error on a
site where the named file does exist. -/
theorem validation_precedes_resolution_witness :
    resizeImage fsSite ["site"] procOk
        [("path", .str "gutenberg.jpg"), ("quality", .num 101)]
      = .error "`resize_image`: `quality` must be in range 1-100" :=
  (validation_precedes_resolution fsSite [] ["site"] [] procOk procOk
    [("path", .str "gutenberg.jpg"), ("quality", .num 101)]
    "`resize_image`: `quality` must be in range 1-100" rfl).1

/-- C5: when the path fails to resolve, `get_image_metadata` returns null
without error when `allow_missing` is true, and fails with the
file-not-found error when `allow_missing` is false or omitted; `resize_image`
by contrast always fails on an unresolved path. -/
theorem allow_missing_behavior (fs : FS) (basePath : FPath) (p : String)
    (hres : searchForFile fs basePath p = none) :
    getImageMetadata fs basePath
        [("path", .str p), ("allow_missing", .bool true)] = .ok .null ∧
    getImageMetadata fs basePath
        [("path", .str p), ("allow_missing", .bool false)]
      = .error ("`resize_image`: Cannot find path: " ++ p) ∧
    getImageMetadata fs basePath [("path", .str p)]
      = .error ("`resize_image`: Cannot find path: " ++ p) ∧
    ∀ (proc : ImageProc) (args : List (String × Value)) (r : ResizeArgs),
      validateResizeArgs args = .ok r →
      searchForFile fs basePath r.path = none →
      resizeImage fs basePath proc args
        = .error ("`resize_image`: Cannot find file: " ++ r.path) :=
  ⟨metadata_missing_allow fs basePath p hres,
   metadata_missing_false fs basePath p hres,
   metadata_missing_default fs basePath p hres,
   fun proc args r hv hres' => resize_missing fs basePath proc args r hv hres'⟩

/-- C5, witness: a missing file with `allow_missing = true` yields null. -/
theorem allow_missing_behavior_witness :
    getImageMetadata [] ["site"]
        [("path", .str "missing.jpg"), ("allow_missing", .bool true)]
      = .ok .null :=
  (allow_missing_behavior [] ["site"] "missing.jpg" rfl).1

/-- C6, counterexample: for the absolute path `/static/gutenberg.jpg`,
whose file exists under the site root, `get_image_metadata` with
`allow_missing = true` returns null without any error — so the two
functions do not fail unconditionally on absolute paths. -/
theorem absolute_path_not_always_error :
    fileExists fsSite ["site", "static", "gutenberg.jpg"] = true ∧
    getImageMetadata fsSite ["site"]
        [("path", .str "/static/gutenberg.jpg"),
         ("allow_missing", .bool true)]
      = .ok .null :=
  ⟨rfl, rfl⟩

/-- C6 (amended): a logical path beginning with the path separator always
fails resolution and is never attempted against any root, even when the file
exists under the site root; `resize_image` then always fails with an error,
and `get_image_metadata` fails with an error unless `allow_missing` is true,
in which case it returns null without error. -/
theorem absolute_path_never_attempted (fs : FS) (basePath : FPath)
    (p : String) (hp : strStartsWith p "/" = true) :
    searchForFile fs basePath p = none ∧
    (∀ (proc : ImageProc) (args : List (String × Value)) (r : ResizeArgs),
      validateResizeArgs args = .ok r → r.path = p →
      resizeImage fs basePath proc args
        = .error ("`resize_image`: Cannot find file: " ++ p)) ∧
    getImageMetadata fs basePath [("path", .str p)]
      = .error ("`resize_image`: Cannot find path: " ++ p) ∧
    getImageMetadata fs basePath
        [("path", .str p), ("allow_missing", .bool false)]
      = .error ("`resize_image`: Cannot find path: " ++ p) ∧
    getImageMetadata fs basePath
        [("path", .str p), ("allow_missing", .bool true)] = .ok .null := by
  have hres : searchForFile fs basePath p = none := by
    unfold searchForFile
    rw [if_pos hp]
  refine ⟨hres, ?_, metadata_missing_default fs basePath p hres,
    metadata_missing_false fs basePath p hres,
    metadata_missing_allow fs basePath p hres⟩
  intro proc args r hv hrp
  have h := resize_missing fs basePath proc args r hv (by rw [hrp]; exact hres)
  rwa [hrp] at h

/-- C6, witness: the absolute path of the test scenario fails resolution on
the example site. -/
theorem absolute_path_never_attempted_witness :
    searchForFile fsSite ["site"] "/content/gutenberg.jpg" = none :=
  (absolute_path_never_attempted fsSite ["site"] "/content/gutenberg.jpg"
    (by decide)).1

/-- C7: the resolver equals "first existing candidate of the spec's ordered
candidate list": the content-root join for `@/` paths, the direct join for
`content/`/`static/` paths, and content root, then static root, then base
directory for bare relative paths; absolute paths have no candidates, and an
empty search result is reported as `none`, not as an error. -/
theorem search_returns_first_existing_candidate (fs : FS) (basePath : FPath)
    (p : String) :
    searchForFile fs basePath p
      = (resolutionCandidates basePath p).find? (fileExists fs) := by
  unfold searchForFile resolutionCandidates
  split_ifs with h1 h2 h3 <;> simp [find?_cons_eq_if]

/-- C8: `resize_image` is a function of the six documented arguments alone:
two argument bags that agree on `path`, `width`, `height`, `op`, `format`
and `quality` produce identical responses against the same file system and
processor — in particular repeated identical calls yield identical
`static_path` and `url`. -/
theorem resize_image_deterministic (fs : FS) (basePath : FPath)
    (proc : ImageProc) (a1 a2 : List (String × Value))
    (hpath : getArg a1 "path" = getArg a2 "path")
    (hw : getArg a1 "width" = getArg a2 "width")
    (hh : getArg a1 "height" = getArg a2 "height")
    (hop : getArg a1 "op" = getArg a2 "op")
    (hfmt : getArg a1 "format" = getArg a2 "format")
    (hq : getArg a1 "quality" = getArg a2 "quality") :
    resizeImage fs basePath proc a1 = resizeImage fs basePath proc a2 := by
  have hv : validateResizeArgs a1 = validateResizeArgs a2 := by
    unfold validateResizeArgs
    rw [hpath, hw, hh, hop, hfmt, hq]
  unfold resizeImage
  rw [hv]

/-- C8, witness: adding an unrelated argument key leaves the response
unchanged. -/
theorem resize_image_deterministic_witness :
    resizeImage fsSite ["site"] procOk [("path", .str "gutenberg.jpg")]
      = resizeImage fsSite ["site"] procOk
          [("path", .str "gutenberg.jpg"), ("extra", .null)] :=
  resize_image_deterministic fsSite ["site"] procOk
    [("path", .str "gutenberg.jpg")]
    [("path", .str "gutenberg.jpg"), ("extra", .null)]
    rfl rfl rfl rfl rfl rfl

/-- C9: `quality` is parsed as an unsigned 8-bit integer before the range
check: an integer above 255 or below 0 (and likewise a non-number value)
fails with the wrong-type message naming `quality`, never with the
invalid-range error. -/
theorem quality_parsed_as_u8 (fs : FS) (basePath : FPath) (proc : ImageProc)
    (p : String) (n : Int) (hn : 256 ≤ n ∨ n < 0) :
    fromValueU8 (.num n) = none ∧
    resizeImage fs basePath proc [("path", .str p), ("quality", .num n)]
      = .error "`resize_image`: `quality` must be a number" ∧
    ∀ s, resizeImage fs basePath proc [("path", .str p), ("quality", .str s)]
      = .error "`resize_image`: `quality` must be a number" := by
  have h8 : fromValueU8 (.num n) = none := by
    simp only [fromValueU8]
    rw [if_neg (by omega : ¬((0 : Int) ≤ n ∧ n < 256))]
  refine ⟨h8, ?_, ?_⟩
  · unfold resizeImage validateResizeArgs
    simp [getArg, List.lookup, requiredArg, optionalArg, fromValueString, h8,
      except_ok_bind]
    rfl
  · intro s
    unfold resizeImage validateResizeArgs
    simp [getArg, List.lookup, requiredArg, optionalArg, fromValueString,
      fromValueU8, except_ok_bind]
    rfl

/-- C9, witness at quality 300 on the example site. -/
theorem quality_parsed_as_u8_witness :
    resizeImage fsSite ["site"] procOk
        [("path", .str "gutenberg.jpg"), ("quality", .num 300)]
      = .error "`resize_image`: `quality` must be a number" :=
  (quality_parsed_as_u8 fsSite ["site"] procOk "gutenberg.jpg" 300
    (Or.inl (by decide))).2.1

/-- C10: the error `get_image_metadata` raises when the path does not
resolve (with `allow_missing` false) is exactly
`` `resize_image`: Cannot find path: <path> ``, which begins with the prefix
naming `resize_image`, not `get_image_metadata`. -/
theorem metadata_error_names_resize_image (fs : FS) (basePath : FPath)
    (p : String) (hres : searchForFile fs basePath p = none) :
    getImageMetadata fs basePath [("path", .str p)]
      = .error ("`resize_image`: Cannot find path: " ++ p) ∧
    ∃ rest, "`resize_image`: Cannot find path: " ++ p
      = "`resize_image`: Cannot find path:" ++ rest := by
  refine ⟨metadata_missing_default fs basePath p hres, " " ++ p, ?_⟩
  rw [show ("`resize_image`: Cannot find path: " : String)
      = "`resize_image`: Cannot find path:" ++ " " from rfl]
  rw [String.append_assoc]

/-- C10, witness at `missing.jpg` on an empty file system. -/
theorem metadata_error_names_resize_image_witness :
    getImageMetadata [] ["site"] [("path", .str "missing.jpg")]
      = .error ("`resize_image`: Cannot find path: " ++ "missing.jpg") :=
  (metadata_error_names_resize_image [] ["site"] "missing.jpg" rfl).1

end ZolaImages
